import Mathlib

/-!
Verification of the weather-lookup service (FastAPI template repository).

The embedding mirrors `src/app/core/config.py`, `src/app/services/weather_service.py`
and `src/app/api/routes/weather.py`.  Python floats are idealised as rationals;
`datetime.now(timezone.utc).isoformat()` is threaded as an explicit `now : String`
argument; the mutable `self._weather_data` dict is threaded as explicit state
(an association list that keeps Python's dict insertion order).  Crucially,
`get_weather` in the source annotates the dict object obtained from
`self._weather_data.get(city)` *in place*, so the embedding returns the updated
table alongside the returned record.
-/

/-- `app/core/config.py`: the `Settings` class (four scalar fields). -/
structure Settings where
  app_name : String
  debug : Bool
  api_version : String
  max_temperature : ℚ
deriving DecidableEq, Repr

/-- The documented defaults of `Settings` (used when no environment overrides). -/
def defaultSettings : Settings :=
  { app_name := "Weather API", debug := false, api_version := "v1", max_temperature := 100 }

/-- One value dict of `self._weather_data`: seed keys `temp`/`humidity`/`condition`
are always present; `warning`/`timestamp`/`city` are keys the source adds to the
dict during `get_weather`, hence optional. -/
structure WeatherRecord where
  temp : ℚ
  humidity : ℚ
  condition : String
  warning : Option String := none
  timestamp : Option String := none
  city : Option String := none
deriving DecidableEq, Repr

/-- The `self._weather_data` dict: association list in insertion order. -/
def WeatherTable := List (String × WeatherRecord)
deriving DecidableEq

/-- Python `dict.get(k)`: the value at the first (unique) matching key. -/
def dictGet (d : WeatherTable) (k : String) : Option WeatherRecord :=
  (List.find? (fun p => p.1 = k) d).map Prod.snd

/-- Python `d[k] = v` on a key already present: replaces the value, keeps order. -/
def dictSetExisting (d : WeatherTable) (k : String) (v : WeatherRecord) : WeatherTable :=
  d.map (fun p => if p.1 = k then (k, v) else p)

namespace WeatherService

/-- `WeatherService.__init__`: the seed table. -/
def initTable : WeatherTable :=
  [ ("New York", { temp := 72.5, humidity := 65, condition := "Partly Cloudy" }),
    ("London",   { temp := 59.0, humidity := 78, condition := "Rainy" }),
    ("Tokyo",    { temp := 68.3, humidity := 55, condition := "Sunny" }),
    ("Sydney",   { temp := 77.9, humidity := 60, condition := "Clear" }) ]

/-- The literal f-string of the `ValueError` raised for an unknown city. -/
def notFoundMsg (city : String) : String :=
  "Weather data not found for city: " ++ city

/-- The fixed advisory string assigned to `weather["warning"]`. -/
def warningMsg : String := "Temperature exceeds maximum threshold!"

/-- `WeatherService.get_weather`.  The source fetches the stored dict by
reference, conditionally sets `warning`, then sets `timestamp` and `city`
on that same dict, and returns it — so the stored table entry is mutated.
The result pairs the returned record with the post-call table.
(`if not weather:` is truthiness on `None`-or-empty-dict; every stored dict
has at least the three seed keys, so it is exactly the `None` test.) -/
def get_weather (s : Settings) (table : WeatherTable) (city : String) (now : String) :
    Except String (WeatherRecord × WeatherTable) :=
  match dictGet table city with
  | none => .error (notFoundMsg city)
  | some weather =>
    let weather :=
      if weather.temp > s.max_temperature then
        { weather with warning := some warningMsg }
      else weather
    let weather := { weather with timestamp := some now, city := some city }
    .ok (weather, dictSetExisting table city weather)

/-- The table state after a call to `get_weather` (unchanged when it raises). -/
def tableAfter (s : Settings) (table : WeatherTable) (city : String) (now : String) :
    WeatherTable :=
  match get_weather s table city now with
  | .error _ => table
  | .ok (_, t) => t

/-- `WeatherService.get_available_cities`: `list(self._weather_data.keys())`. -/
def get_available_cities (table : WeatherTable) : List String :=
  table.map Prod.fst

/-- Round-half-to-even to an integer (CPython `round` on the exact value). -/
def roundHalfEven (x : ℚ) : ℤ :=
  if x - ⌊x⌋ < 1/2 then ⌊x⌋
  else if 1/2 < x - ⌊x⌋ then ⌊x⌋ + 1
  else if ⌊x⌋ % 2 = 0 then ⌊x⌋ else ⌊x⌋ + 1

/-- Python `round(x, 2)` on the idealised (rational) value. -/
def round2 (x : ℚ) : ℚ := (roundHalfEven (x * 100) : ℚ) / 100

/-- `WeatherService.calculate_heat_index`: `round(temperature + 0.5 * humidity, 2)`. -/
def calculate_heat_index (temperature humidity : ℚ) : ℚ :=
  round2 (temperature + 0.5 * humidity)

end WeatherService

/-- Tables reachable from the seed table by any sequence of `get_weather` calls
(the only operation that touches the table; `get_available_cities` and
`calculate_heat_index` read or ignore it). -/
inductive Reachable (s : Settings) : WeatherTable → Prop
  | init : Reachable s WeatherService.initTable
  | step (t : WeatherTable) (city now : String) :
      Reachable s t → Reachable s (WeatherService.tableAfter s t city now)

namespace routes

/-- Python `str()` of a bool, as used in `"debug_mode": str(settings.debug)`. -/
def pyStr (b : Bool) : String := if b then "True" else "False"

/-- Body of the `/info` response (`Dict[str, str]`). -/
structure InfoBody where
  app_name : String
  version : String
  debug_mode : String
deriving DecidableEq, Repr

/-- `get_api_info` route: HTTP status paired with the JSON body. -/
def get_api_info (s : Settings) : Nat × InfoBody :=
  (200, { app_name := s.app_name, version := s.api_version, debug_mode := pyStr s.debug })

/-- Result of the weather-by-city route: 200 with the record, or 404 with
`{"detail": str(e)}` from the caught `ValueError`. -/
inductive WeatherHTTP where
  | ok (record : WeatherRecord)
  | err (detail : String)
deriving DecidableEq, Repr

/-- `get_weather` route: calls the service and maps `ValueError` to 404.
Returns (status, body) and the table state after the request. -/
def get_weather (s : Settings) (table : WeatherTable) (city : String) (now : String) :
    (Nat × WeatherHTTP) × WeatherTable :=
  match WeatherService.get_weather s table city now with
  | .ok (w, t) => ((200, .ok w), t)
  | .error e => ((404, .err e), table)

/-- Body of the heat-index 200 response (`Dict[str, float]`). -/
structure HeatIndexBody where
  temperature : ℚ
  humidity : ℚ
  heat_index : ℚ
deriving DecidableEq, Repr

/-- `calculate_heat_index` route.  FastAPI validates the query parameters
against `ge=-50, le=150` and `ge=0, le=100` before the handler runs,
answering 422 (`none` body) on violation; otherwise the handler echoes the
inputs with the computed heat index. -/
def calculate_heat_index (temperature humidity : ℚ) : Nat × Option HeatIndexBody :=
  if -50 ≤ temperature ∧ temperature ≤ 150 ∧ 0 ≤ humidity ∧ humidity ≤ 100 then
    (200, some { temperature := temperature, humidity := humidity,
                 heat_index := WeatherService.calculate_heat_index temperature humidity })
  else
    (422, none)

end routes

/-! ### Helper lemmas -/

/-- Replacing the value at an existing key leaves the key list unchanged. -/
theorem dictSetExisting_keys (d : WeatherTable) (k : String) (v : WeatherRecord) :
    (dictSetExisting d k v).map Prod.fst = d.map Prod.fst := by
  induction d with
  | nil => rfl
  | cons p rest ih =>
    by_cases h : p.1 = k
    · simp [dictSetExisting, h, List.map_cons] at *
      exact ih
    · simp [dictSetExisting, h, List.map_cons] at *
      exact ih

/-- A `get_weather` call never changes the key list of the table. -/
theorem tableAfter_keys (s : Settings) (t : WeatherTable) (city now : String) :
    (WeatherService.tableAfter s t city now).map Prod.fst = t.map Prod.fst := by
  unfold WeatherService.tableAfter WeatherService.get_weather
  cases h : dictGet t city with
  | none => rfl
  | some w => simpa using dictSetExisting_keys t city _

/-- Every reachable table has exactly the four seed keys, in seed order. -/
theorem reachable_keys (s : Settings) (t : WeatherTable) (h : Reachable s t) :
    t.map Prod.fst = ["New York", "London", "Tokyo", "Sydney"] := by
  induction h with
  | init => rfl
  | step t city now _ ih => rw [tableAfter_keys]; exact ih

/-- `roundHalfEven` is the nearest integer, ties resolved to the even one. -/
theorem roundHalfEven_spec (x : ℚ) :
    |(WeatherService.roundHalfEven x : ℚ) - x| ≤ 1/2 ∧
    (|(WeatherService.roundHalfEven x : ℚ) - x| = 1/2 →
      WeatherService.roundHalfEven x % 2 = 0) := by
  have hfl : (⌊x⌋ : ℚ) ≤ x := Int.floor_le x
  have hfu : x < ⌊x⌋ + 1 := Int.lt_floor_add_one x
  unfold WeatherService.roundHalfEven
  split_ifs with h1 h2 h3
  · rw [abs_sub_comm, abs_of_nonneg (by linarith : (0:ℚ) ≤ x - ⌊x⌋)]
    exact ⟨by linarith, fun he => absurd he (by linarith)⟩
  · have hc : |((⌊x⌋ + 1 : ℤ) : ℚ) - x| = (⌊x⌋ : ℚ) + 1 - x := by
      push_cast
      rw [abs_of_nonneg (by linarith)]
    rw [hc]
    exact ⟨by linarith, fun he => absurd he (by linarith)⟩
  · have heq : x - ⌊x⌋ = 1/2 := le_antisymm (not_lt.mp h2) (not_lt.mp h1)
    rw [abs_sub_comm, abs_of_nonneg (by linarith : (0:ℚ) ≤ x - ⌊x⌋)]
    exact ⟨by linarith, fun _ => h3⟩
  · have heq : x - ⌊x⌋ = 1/2 := le_antisymm (not_lt.mp h2) (not_lt.mp h1)
    have hc : |((⌊x⌋ + 1 : ℤ) : ℚ) - x| = (⌊x⌋ : ℚ) + 1 - x := by
      push_cast
      rw [abs_of_nonneg (by linarith)]
    rw [hc]
    exact ⟨by linarith, fun _ => by omega⟩

/-! ### Claim theorems -/

/-- C1: the claim says the warning/timestamp/city annotations are applied to a
copy of the stored record and do not leak into the table.  The code annotates
the stored dict in place: after one `get_weather("New York")` call the stored
record for "New York" carries `timestamp` and `city`, so the table differs
from the seed table.  This theorem evaluates the code at that failing input. -/
theorem C1_get_weather_mutates_stored_record :
    dictGet (WeatherService.tableAfter defaultSettings WeatherService.initTable
        "New York" "2024-05-01T00:00:00+00:00") "New York" =
      some { temp := 72.5, humidity := 65, condition := "Partly Cloudy",
             warning := none, timestamp := some "2024-05-01T00:00:00+00:00",
             city := some "New York" } ∧
    WeatherService.tableAfter defaultSettings WeatherService.initTable
        "New York" "2024-05-01T00:00:00+00:00" ≠ WeatherService.initTable := by
  constructor
  · norm_num [WeatherService.tableAfter, WeatherService.get_weather, dictGet,
      dictSetExisting, WeatherService.initTable, List.find?, defaultSettings]
  · intro hEq
    have h2 := congrArg
      (fun t => (dictGet t "New York").map WeatherRecord.timestamp) hEq
    norm_num [WeatherService.tableAfter, WeatherService.get_weather, dictGet,
      dictSetExisting, WeatherService.initTable, List.find?, defaultSettings] at h2
    exact Option.noConfusion h2

/-- C2 counterexample: under the default settings the `debug_mode` field is
`"False"` (Python `str` of a bool), neither `"true"` nor `"false"` as claimed. -/
theorem C2_debug_mode_not_lowercase :
    (routes.get_api_info defaultSettings).2.debug_mode = "False" ∧
    (routes.get_api_info defaultSettings).2.debug_mode ≠ "true" ∧
    (routes.get_api_info defaultSettings).2.debug_mode ≠ "false" := by
  refine ⟨rfl, ?_, ?_⟩ <;> simp [routes.get_api_info, routes.pyStr, defaultSettings]

/-- C2 (amended): the info endpoint always answers 200, echoing the app name
and version settings, and `debug_mode` is the capitalised string `"True"` or
`"False"` — `"True"` exactly when the debug setting is on. -/
theorem C2_info_endpoint :
    ∀ s : Settings,
      (routes.get_api_info s).1 = 200 ∧
      (routes.get_api_info s).2.app_name = s.app_name ∧
      (routes.get_api_info s).2.version = s.api_version ∧
      ((routes.get_api_info s).2.debug_mode = "True" ∨
        (routes.get_api_info s).2.debug_mode = "False") ∧
      ((routes.get_api_info s).2.debug_mode = "True" ↔ s.debug = true) := by
  intro s
  cases hb : s.debug <;> simp [routes.get_api_info, routes.pyStr, hb]

/-- C3: for a city stored in the table (under the invariant that a stored
record only carries a warning when its temperature exceeds the threshold —
true of the seed data and preserved by the code), `get_weather` succeeds and
its record carries the `warning` field iff the stored temperature strictly
exceeds `settings.max_temperature`, and any warning present is the fixed
advisory string. -/
theorem C3_warning_iff_temp_exceeds (s : Settings) (t : WeatherTable)
    (city now : String) (w : WeatherRecord)
    (hw : dictGet t city = some w)
    (hinv : w.warning.isSome = true → w.temp > s.max_temperature) :
    ∃ r t', WeatherService.get_weather s t city now = .ok (r, t') ∧
      (r.warning.isSome = true ↔ w.temp > s.max_temperature) ∧
      (∀ msg, r.warning = some msg → msg = WeatherService.warningMsg) := by
  by_cases hc : w.temp > s.max_temperature
  · refine ⟨⟨w.temp, w.humidity, w.condition, some WeatherService.warningMsg,
        some now, some city⟩,
      dictSetExisting t city ⟨w.temp, w.humidity, w.condition,
        some WeatherService.warningMsg, some now, some city⟩, ?_, ?_, ?_⟩
    · simp [WeatherService.get_weather, hw, hc]
    · simpa using hc
    · intro msg hmsg
      simp at hmsg
      exact hmsg.symm
  · refine ⟨⟨w.temp, w.humidity, w.condition, w.warning, some now, some city⟩,
      dictSetExisting t city ⟨w.temp, w.humidity, w.condition, w.warning,
        some now, some city⟩, ?_, ?_, ?_⟩
    · simp [WeatherService.get_weather, hw, hc]
    · exact ⟨fun hs => hinv hs, fun hgt => (hc hgt).elim⟩
    · intro msg hmsg
      have hmsg' : w.warning = some msg := hmsg
      exact ((hc (hinv (by simp [hmsg']))).elim)

/-- C3 witness: the seed record for "New York" (72.5 °F, threshold 100). -/
theorem C3_warning_iff_temp_exceeds_witness :
    ∃ r t', WeatherService.get_weather defaultSettings WeatherService.initTable
        "New York" "2024-05-01T00:00:00+00:00" = .ok (r, t') ∧
      (r.warning.isSome = true ↔
        (72.5 : ℚ) > defaultSettings.max_temperature) ∧
      (∀ msg, r.warning = some msg → msg = WeatherService.warningMsg) :=
  C3_warning_iff_temp_exceeds defaultSettings WeatherService.initTable
    "New York" "2024-05-01T00:00:00+00:00"
    { temp := 72.5, humidity := 65, condition := "Partly Cloudy" }
    rfl (by simp)

/-- C4: for a city absent from the table, the service raises `ValueError`
with exactly the message `"Weather data not found for city: {city}"`, and the
route maps it to a 404 response whose detail is that message, leaving the
table untouched. -/
theorem C4_not_found_message (s : Settings) (t : WeatherTable)
    (city now : String) (habs : dictGet t city = none) :
    WeatherService.get_weather s t city now =
      .error ("Weather data not found for city: " ++ city) ∧
    routes.get_weather s t city now =
      ((404, .err ("Weather data not found for city: " ++ city)), t) := by
  have h1 : WeatherService.get_weather s t city now =
      .error ("Weather data not found for city: " ++ city) := by
    unfold WeatherService.get_weather
    rw [habs]
    rfl
  exact ⟨h1, by simp [routes.get_weather, h1]⟩

/-- C4 witness: the spec's example city "InvalidCity". -/
theorem C4_not_found_message_witness :
    WeatherService.get_weather defaultSettings WeatherService.initTable
        "InvalidCity" "2024-05-01T00:00:00+00:00" =
      .error ("Weather data not found for city: " ++ "InvalidCity") ∧
    routes.get_weather defaultSettings WeatherService.initTable
        "InvalidCity" "2024-05-01T00:00:00+00:00" =
      ((404, .err ("Weather data not found for city: " ++ "InvalidCity")),
        WeatherService.initTable) :=
  C4_not_found_message defaultSettings WeatherService.initTable
    "InvalidCity" "2024-05-01T00:00:00+00:00" rfl

/-- C5: `calculate_heat_index t h` is exactly `t + 0.5 * h` rounded to two
decimal places under round-half-to-even: the result is `n / 100` for the
integer `n` nearest to `(t + 0.5*h) * 100`, ties resolved to the even
integer; in particular `calculate_heat_index 75 60 = 105`. -/
theorem C5_heat_index_formula :
    WeatherService.calculate_heat_index 75 60 = 105 ∧
    ∀ t h : ℚ, ∃ n : ℤ,
      WeatherService.calculate_heat_index t h = (n : ℚ) / 100 ∧
      |(n : ℚ) - (t + 0.5 * h) * 100| ≤ 1/2 ∧
      (|(n : ℚ) - (t + 0.5 * h) * 100| = 1/2 → n % 2 = 0) := by
  constructor
  · norm_num [WeatherService.calculate_heat_index, WeatherService.round2,
      WeatherService.roundHalfEven]
  · intro t h
    exact ⟨WeatherService.roundHalfEven ((t + 0.5 * h) * 100), rfl,
      (roundHalfEven_spec ((t + 0.5 * h) * 100)).1,
      (roundHalfEven_spec ((t + 0.5 * h) * 100)).2⟩

/-- C6: the heat-index route answers 422 exactly when temperature is outside
[-50, 150] or humidity is outside [0, 100]; every in-range pair gets 200 with
both inputs echoed unchanged plus the computed heat index. -/
theorem C6_heat_index_endpoint_validation (temperature humidity : ℚ) :
    ((routes.calculate_heat_index temperature humidity).1 = 422 ↔
      (temperature < -50 ∨ 150 < temperature ∨ humidity < 0 ∨ 100 < humidity)) ∧
    ((-50 ≤ temperature ∧ temperature ≤ 150 ∧ 0 ≤ humidity ∧ humidity ≤ 100) →
      routes.calculate_heat_index temperature humidity =
        (200, some ⟨temperature, humidity,
          WeatherService.calculate_heat_index temperature humidity⟩)) := by
  by_cases h : -50 ≤ temperature ∧ temperature ≤ 150 ∧ 0 ≤ humidity ∧ humidity ≤ 100
  · have hno : ¬(temperature < -50 ∨ 150 < temperature ∨
        humidity < 0 ∨ 100 < humidity) := by
      push_neg
      exact ⟨h.1, h.2.1, h.2.2.1, h.2.2.2⟩
    constructor
    · simp [routes.calculate_heat_index, h, hno]
    · intro _
      simp [routes.calculate_heat_index, h]
  · have hyes : temperature < -50 ∨ 150 < temperature ∨
        humidity < 0 ∨ 100 < humidity := by
      by_contra hno
      push_neg at hno
      exact h ⟨hno.1, hno.2.1, hno.2.2.1, hno.2.2.2⟩
    constructor
    · simp [routes.calculate_heat_index, h, hyes]
    · intro hin
      exact absurd hin h

/-- C7: each of the four seed cities looks up successfully, echoing the city
key and returning exactly the seed temperature, humidity and condition. -/
theorem C7_seed_city_lookups (now : String) :
    WeatherService.get_weather defaultSettings WeatherService.initTable
        "New York" now =
      .ok (⟨72.5, 65, "Partly Cloudy", none, some now, some "New York"⟩,
        dictSetExisting WeatherService.initTable "New York"
          ⟨72.5, 65, "Partly Cloudy", none, some now, some "New York"⟩) ∧
    WeatherService.get_weather defaultSettings WeatherService.initTable
        "London" now =
      .ok (⟨59.0, 78, "Rainy", none, some now, some "London"⟩,
        dictSetExisting WeatherService.initTable "London"
          ⟨59.0, 78, "Rainy", none, some now, some "London"⟩) ∧
    WeatherService.get_weather defaultSettings WeatherService.initTable
        "Tokyo" now =
      .ok (⟨68.3, 55, "Sunny", none, some now, some "Tokyo"⟩,
        dictSetExisting WeatherService.initTable "Tokyo"
          ⟨68.3, 55, "Sunny", none, some now, some "Tokyo"⟩) ∧
    WeatherService.get_weather defaultSettings WeatherService.initTable
        "Sydney" now =
      .ok (⟨77.9, 60, "Clear", none, some now, some "Sydney"⟩,
        dictSetExisting WeatherService.initTable "Sydney"
          ⟨77.9, 60, "Clear", none, some now, some "Sydney"⟩) := by
  have hNY : dictGet WeatherService.initTable "New York" =
      some ⟨72.5, 65, "Partly Cloudy", none, none, none⟩ := rfl
  have hLo : dictGet WeatherService.initTable "London" =
      some ⟨59.0, 78, "Rainy", none, none, none⟩ := rfl
  have hTo : dictGet WeatherService.initTable "Tokyo" =
      some ⟨68.3, 55, "Sunny", none, none, none⟩ := rfl
  have hSy : dictGet WeatherService.initTable "Sydney" =
      some ⟨77.9, 60, "Clear", none, none, none⟩ := rfl
  refine ⟨?_, ?_, ?_, ?_⟩ <;> unfold WeatherService.get_weather
  · rw [hNY]
    norm_num [defaultSettings]
  · rw [hLo]
    norm_num [defaultSettings]
  · rw [hTo]
    norm_num [defaultSettings]
  · rw [hSy]
    norm_num [defaultSettings]

/-- C8: on every table reachable by any sequence of calls (including calls
interleaved with `get_weather`), `get_available_cities` returns exactly the
four seed names in seed insertion order. -/
theorem C8_available_cities_stable (s : Settings) (t : WeatherTable)
    (h : Reachable s t) :
    WeatherService.get_available_cities t =
      ["New York", "London", "Tokyo", "Sydney"] :=
  reachable_keys s t h

/-- C8 witness: the city list of the seed table itself. -/
theorem C8_available_cities_stable_witness :
    WeatherService.get_available_cities WeatherService.initTable =
      ["New York", "London", "Tokyo", "Sydney"] :=
  C8_available_cities_stable defaultSettings WeatherService.initTable
    (@Reachable.init defaultSettings)

/-- C9: `get_weather` (the only operation that touches the table — listing and
the heat-index computation never write it) preserves the table's key list, so
after any sequence of calls the table still maps exactly the four seed names. -/
theorem C9_operations_preserve_key_set (s : Settings) (t : WeatherTable)
    (city now : String) (h : Reachable s t) :
    (WeatherService.tableAfter s t city now).map Prod.fst = t.map Prod.fst ∧
    t.map Prod.fst = ["New York", "London", "Tokyo", "Sydney"] :=
  ⟨tableAfter_keys s t city now, reachable_keys s t h⟩

/-- C9 witness: one `get_weather` step from the seed table. -/
theorem C9_operations_preserve_key_set_witness :
    (WeatherService.tableAfter defaultSettings WeatherService.initTable
        "New York" "2024-05-01T00:00:00+00:00").map Prod.fst =
      WeatherService.initTable.map Prod.fst ∧
    WeatherService.initTable.map Prod.fst =
      ["New York", "London", "Tokyo", "Sydney"] :=
  C9_operations_preserve_key_set defaultSettings WeatherService.initTable
    "New York" "2024-05-01T00:00:00+00:00" (@Reachable.init defaultSettings)

/-- C10: when the city is absent the service raises before any annotation is
applied, so the failed call leaves the table exactly as it was (both at the
service layer and through the route). -/
theorem C10_error_path_leaves_table_unchanged (s : Settings) (t : WeatherTable)
    (city now : String) (habs : dictGet t city = none) :
    (∃ e, WeatherService.get_weather s t city now = .error e) ∧
    WeatherService.tableAfter s t city now = t ∧
    (routes.get_weather s t city now).2 = t := by
  have h1 : WeatherService.get_weather s t city now =
      .error (WeatherService.notFoundMsg city) := by
    unfold WeatherService.get_weather
    rw [habs]
  refine ⟨⟨_, h1⟩, ?_, ?_⟩
  · unfold WeatherService.tableAfter
    rw [h1]
  · simp [routes.get_weather, h1]

/-- C10 witness: the failed lookup of "Atlantis" on the seed table. -/
theorem C10_error_path_leaves_table_unchanged_witness :
    (∃ e, WeatherService.get_weather defaultSettings WeatherService.initTable
        "Atlantis" "2024-05-01T00:00:00+00:00" = .error e) ∧
    WeatherService.tableAfter defaultSettings WeatherService.initTable
        "Atlantis" "2024-05-01T00:00:00+00:00" = WeatherService.initTable ∧
    (routes.get_weather defaultSettings WeatherService.initTable
        "Atlantis" "2024-05-01T00:00:00+00:00").2 = WeatherService.initTable :=
  C10_error_path_leaves_table_unchanged defaultSettings WeatherService.initTable
    "Atlantis" "2024-05-01T00:00:00+00:00" rfl
